import Mathlib

/-!
Verification of the video-to-3D-mesh reconstruction orchestrator of the
`rora` repository, a shallow embedding of `src/mesh/mesh.py` and
`src/mesh/new_mesh.py`.

The two orchestrators drive external tools (apt, ffmpeg, wget, tar,
nvidia-smi, Meshroom_photogrammetry).  We embed each `main` as a pure
function from a `World` record — the outcomes the external tools would
produce (exit codes, detected GPU output, filesystem contents) — to a
`RunResult` record: the process exit code, the pipeline state, the ordered
trace of external effects performed, the GPU id selection, the kept frame
set, the environment handed to the reconstruction stage, and the artifact
files copied into `final/`.
-/

namespace Rora

/-- Toolchain directory name in `mesh.py`: `Meshroom-2021.1.0`
(`MESHROOM_DIRNAME`, mesh.py line 14). -/
def MESHROOM_DIRNAME : String := "Meshroom-2021.1.0"

/-- One externally visible effect performed by an orchestrator run, in
program order: directory creation, package-manager calls, tool probes,
download, archive extraction, chmod, frame extraction, frame deletion,
the reconstruction-stage invocation, and artifact copies. -/
inductive Ev where
  | mkdir (path : String)
  | aptUpdate
  | aptInstall (pkgs : List String)
  | ffmpegVersion
  | nvidiaSmi
  | wget (url : String)
  | tar
  | chmod
  | ffmpegExtract
  | unlink (idx : Nat)
  | meshroomRun
  | copy (fname : String)
  deriving DecidableEq, Repr

/-- Stage labels of the pipeline, for recording where a run failed. -/
inductive StageName where
  | videoCheck
  | provisioning
  | frameExtraction
  | reconstruction
  deriving DecidableEq, Repr

/-- Terminal pipeline state: `completed`, or `failed` at a stage with the
process exit code produced there. -/
inductive PState where
  | completed
  | failed (s : StageName) (code : Nat)
  deriving DecidableEq, Repr

/-- A node directory inside the toolchain cache (or the workdir): its
name, its modification time, and the plain files it contains. -/
structure NodeDir where
  name : String
  mtime : Nat
  files : List String
  deriving DecidableEq, Repr

/-- Python `max(candidates, key=lambda p: p.stat().st_mtime)`: the first
element of maximal mtime (later elements replace the current maximum only
when strictly larger).  `none` on the empty list (Python raises). -/
def maxByMtime : List NodeDir → Option NodeDir
  | [] => none
  | d :: ds => some (ds.foldl (fun cur x => if x.mtime > cur.mtime then x else cur) d)

/-- Python `str.startswith`, modeled on the character list of the
string. -/
def pyStartsWith (s pre : String) : Bool :=
  pre.data.isPrefixOf s.data

/-- Python `str.endswith` (the semantics of a `*.ext` glob used by the
artifact collectors), modeled on the character list of the string. -/
def pyEndsWith (s suf : String) : Bool :=
  suf.data.isSuffixOf s.data

/-- Python `str.strip` on a character list: drop whitespace from both
ends. -/
def stripChars (l : List Char) : List Char :=
  ((l.dropWhile Char.isWhitespace).reverse.dropWhile Char.isWhitespace).reverse

/-- Python `str.strip`. -/
def pyStrip (s : String) : String :=
  String.mk (stripChars s.data)

/-- Split a character list at every occurrence of the separator
(Python `str.split(sep)` / `str.splitlines` for newline-separated
text). -/
def splitChars (c : Char) : List Char → List (List Char)
  | [] => [[]]
  | x :: xs =>
    let r := splitChars c xs
    if x = c then [] :: r
    else
      match r with
      | [] => [[x]]
      | y :: ys => (x :: y) :: ys

/-- Python `str.split(sep)` for a one-character separator. -/
def pySplitOn (s : String) (c : Char) : List String :=
  (splitChars c s.data).map String.mk

/-- GPU detection, `detect_gpus` (mesh.py lines 39-45, new_mesh.py lines
47-53).  The `nvidia-smi` outcome is `none` when the query raises (tool
absent or error) and `some out` with the decoded stdout otherwise.  The
code strips the output, splits it into lines, strips each line and keeps
the non-empty ones; on any exception it returns `[]`.  (`splitlines` is
modeled as splitting on the newline character; the subsequent strip and
non-empty filter make the two agree on the outer strip's output.) -/
def detect_gpus (out : Option String) : List String :=
  match out with
  | none => []
  | some s =>
    ((pySplitOn (pyStrip s) '\n').map pyStrip).filter (fun g => g ≠ "")

/-- Explicit `--gpus` argument parsing (mesh.py line 133):
`[g.strip() for g in args.gpus.split(",") if g.strip() != ""]`. -/
def splitIds (s : String) : List String :=
  ((pySplitOn s ',').map pyStrip).filter (fun g => g ≠ "")

/-- Comma-join of the selected GPU ids, `",".join(gpu_ids)`. -/
def joinIds (ids : List String) : String :=
  String.intercalate "," ids

/-- Frame capping of `extract_frames` (mesh.py lines 74-80, new_mesh.py
lines 95-100; the two bodies are identical).  `all_frames` is the sorted
glob of the frames directory.  When `max_frames` is not None and positive
and `len(all_frames) > max_frames`, every frame past the first
`max_frames` is unlinked; otherwise nothing is removed.  Returns the kept
frames. -/
def capFrames (max_frames : Option Int) (all_frames : List Nat) : List Nat :=
  match max_frames with
  | none => all_frames
  | some m =>
    if 0 < m then
      if (all_frames.length : Int) > m then all_frames.take m.toNat
      else all_frames
    else all_frames

/-- The frames unlinked by the capping step: `all_frames[max_frames:]`
when capping fires, nothing otherwise. -/
def dropFrames (max_frames : Option Int) (all_frames : List Nat) : List Nat :=
  match max_frames with
  | none => []
  | some m =>
    if 0 < m then
      if (all_frames.length : Int) > m then all_frames.drop m.toNat
      else []
    else []

/-- Outcome of toolchain provisioning: trace of effects, whether it
returned normally (an uncaught `CalledProcessError` or
`FileNotFoundError` makes the interpreter exit with code 1), and the
toolchain path it returned. -/
structure ProvResult where
  trace : List Ev
  ok : Bool
  path : String
  deriving DecidableEq, Repr

/-- Provisioner of `mesh.py`, `download_meshroom` (lines 47-61): when the
`Meshroom_photogrammetry` executable already exists under
`workdir/MESHROOM_DIRNAME` it returns that directory at once; otherwise
it downloads the archive with wget, extracts it with tar, chmods the
executable and returns the directory.  `wgetExit`/`tarExit` are the
external commands' exit codes; a non-zero one raises out of the function
(`run` uses `check=True` and nothing catches it here). -/
def download_meshroom (meshroomPresent : Bool) (wgetExit tarExit : Nat) : ProvResult :=
  if meshroomPresent then
    { trace := [], ok := true, path := MESHROOM_DIRNAME }
  else if wgetExit ≠ 0 then
    { trace := [Ev.wget "meshroom-tgz"], ok := false, path := "" }
  else if tarExit ≠ 0 then
    { trace := [Ev.wget "meshroom-tgz", Ev.tar], ok := false, path := "" }
  else
    { trace := [Ev.wget "meshroom-tgz", Ev.tar, Ev.chmod], ok := true,
      path := MESHROOM_DIRNAME }

/-- Provisioner of `new_mesh.py`, `download_meshroom` (lines 55-85): the
download is skipped when the archive file already exists, but `tar -xzf`
runs unconditionally on every call; then the most recently modified
`Meshroom-` directory of the workdir is picked and walked for the
executable (`exeFound` is the outcome of that walk; absence raises
`FileNotFoundError`, as does an empty candidate list). -/
def new_download_meshroom (tgzExists : Bool) (wgetExit tarExit : Nat)
    (workdirDirs : List NodeDir) (exeFound : Bool) : ProvResult :=
  let dl : List Ev := if tgzExists then [] else [Ev.wget "meshroom-tgz"]
  if ¬ tgzExists ∧ wgetExit ≠ 0 then
    { trace := dl, ok := false, path := "" }
  else if tarExit ≠ 0 then
    { trace := dl ++ [Ev.tar], ok := false, path := "" }
  else
    match maxByMtime (workdirDirs.filter (fun p => pyStartsWith p.name "Meshroom-")) with
    | none => { trace := dl ++ [Ev.tar], ok := false, path := "" }
    | some d =>
      if exeFound then
        { trace := dl ++ [Ev.tar, Ev.chmod], ok := true, path := d.name }
      else
        { trace := dl ++ [Ev.tar], ok := false, path := "" }

/-- Frame extraction, `extract_frames` (mesh.py lines 63-80, new_mesh.py
lines 87-100): make the frames directory, run ffmpeg (exit code
`ffmpegExit`; non-zero raises out, uncaught), which emits the contiguous
1-based frames `1..rawFrames`; then cap.  Returns the trace, whether it
returned normally, and the kept frame indices. -/
def extract_frames (max_frames : Option Int) (ffmpegExit rawFrames : Nat) :
    List Ev × Bool × List Nat :=
  let base : List Ev := [Ev.mkdir "frames", Ev.ffmpegExtract]
  if ffmpegExit ≠ 0 then (base, false, [])
  else
    let all := List.range' 1 rawFrames
    (base ++ (dropFrames max_frames all).map Ev.unlink, true,
      capFrames max_frames all)

/-- Python dict assignment `env[k] = v` on an association list. -/
def setVar (env : List (String × String)) (k v : String) : List (String × String) :=
  (env.filter (fun p => p.1 ≠ k)) ++ [(k, v)]

/-- Environment built by `mesh.py` for the reconstruction stage (lines
154-166): a copy of the inherited environment; when the selected GPU id
list is non-empty, `ALICEVISION_CUDA_DEVICES` and `CUDA_VISIBLE_DEVICES`
are set to the comma-join; `OMP_NUM_THREADS` is set to
`max(1, cpu_count - 1)` (over the integers; for `cpu ≥ 1` the natural
subtraction used here agrees with Python's). -/
def meshEnvOf (base : List (String × String)) (gpuIds : List String) (cpu : Nat) :
    List (String × String) :=
  setVar
    (if gpuIds ≠ [] then
      setVar (setVar base "ALICEVISION_CUDA_DEVICES" (joinIds gpuIds))
        "CUDA_VISIBLE_DEVICES" (joinIds gpuIds)
    else base)
    "OMP_NUM_THREADS" (toString (max 1 (cpu - 1)))

/-- Environment built by `new_mesh.py` for the reconstruction stage
(lines 143-146): only the two GPU-visibility variables, and only when
the detected GPU id list is non-empty.  No thread-count variable is set. -/
def newMeshEnvOf (base : List (String × String)) (gpuIds : List String) :
    List (String × String) :=
  if gpuIds ≠ [] then
    setVar (setVar base "ALICEVISION_CUDA_DEVICES" (joinIds gpuIds))
      "CUDA_VISIBLE_DEVICES" (joinIds gpuIds)
  else base

/-- Python's `f` at the end of `for f in latest.glob(ext)`: the last
file matching the extension, if any. -/
def lastMatching (ext : String) (files : List String) : Option String :=
  files.foldl (fun acc f => if pyEndsWith f ext then some f else acc) none

/-- Artifact collection of `mesh.py` (lines 183-208): when the
`MeshroomCache/Texturing` directory exists and has subdirectories, pick
the most recently modified one; the glob loops leave `textured_obj`,
`textured_mtl`, `textured_png` holding the LAST match of each extension
(at most one file per extension); those present are copied with
`shutil.copy2` into `final/`, preserving filenames.  Returns the copied
names in copy order. -/
def collectArtifacts (cache : Option (List NodeDir)) : List String :=
  match cache with
  | none => []
  | some dirs =>
    match maxByMtime dirs with
    | none => []
    | some latest =>
      ([lastMatching ".obj" latest.files, lastMatching ".mtl" latest.files,
        lastMatching ".png" latest.files].filterMap id)

/-- Artifact collection of `new_mesh.py` (lines 154-163): same directory
selection, but every file matching each of `*.obj`, `*.mtl`, `*.png` in
the chosen directory is copied with `shutil.copy2`, preserving
filenames. -/
def newCollectArtifacts (cache : Option (List NodeDir)) : List String :=
  match cache with
  | none => []
  | some dirs =>
    match maxByMtime dirs with
    | none => []
    | some latest =>
      (latest.files.filter (fun f => pyEndsWith f ".obj"))
        ++ (latest.files.filter (fun f => pyEndsWith f ".mtl"))
        ++ (latest.files.filter (fun f => pyEndsWith f ".png"))

/-- Effects of `apt_install` (mesh.py lines 20-26, new_mesh.py lines
29-34): `apt-get update` then `apt-get install`; a failing update raises
before the install runs, but the exception is caught inside the
function, so nothing propagates. -/
def apt_install (pkgs : List String) (updateOk : Bool) : List Ev :=
  [Ev.aptUpdate] ++ if updateOk then [Ev.aptInstall pkgs] else []

/-- Package list of `ensure_tools` (mesh.py lines 34-37). -/
def TOOL_PKGS : List String :=
  ["wget", "tar", "coreutils", "jq", "libgl1", "libx11-6", "libxext6", "libxrender1"]

/-- Effects of `ensure_tools` (mesh.py lines 34-37, new_mesh.py 42-45). -/
def ensure_tools (updateOk : Bool) : List Ev :=
  apt_install TOOL_PKGS updateOk

/-- Effects of `ensure_ffmpeg` (mesh.py lines 28-32, new_mesh.py 36-40):
probe `ffmpeg -version`; on any exception, apt-install ffmpeg. -/
def ensure_ffmpeg (ffmpegPresent updateOk : Bool) : List Ev :=
  [Ev.ffmpegVersion] ++ if ffmpegPresent then [] else apt_install ["ffmpeg"] updateOk

/-- External-world outcomes driving one `mesh.py` run: the CLI arguments
that matter (`--gpus`, `--max-frames`; argparse always supplies an `int`
for the latter), tool availability, external exit codes, the raw frame
count ffmpeg produces, the host CPU count, the inherited process
environment, and the texturing-cache contents found after
reconstruction (`none` when `MeshroomCache/Texturing` does not exist). -/
structure MeshWorld where
  videoExists : Bool
  gpus : String
  maxFrames : Int
  aptUpdateOk : Bool
  ffmpegPresent : Bool
  nvidiaSmi : Option String
  meshroomPresent : Bool
  wgetExit : Nat
  tarExit : Nat
  ffmpegExit : Nat
  rawFrames : Nat
  cpuCount : Nat
  baseEnv : List (String × String)
  meshroomExit : Nat
  cache : Option (List NodeDir)
  deriving Repr

/-- Observable outcome of one orchestrator run: the process exit code,
the terminal pipeline state, the ordered effect trace, the GPU id list
selected for the stages, the kept frame indices, the environment passed
to the reconstruction command (`none` when it was never invoked), and
the artifact filenames copied into `final/`. -/
structure RunResult where
  exit : Nat
  state : PState
  trace : List Ev
  gpuIds : List String
  keptFrames : List Nat
  meshEnv : Option (List (String × String))
  copied : List String
  deriving DecidableEq, Repr

/-- The `main` of `mesh.py` (lines 100-237).  The video-existence check
(lines 111-114) runs before any directory creation or stage; a missing
video exits with code 1.  Then: `output` mkdir, best-effort dependency
installs, unconditional GPU detection, GPU id selection from the
`--gpus` policy, workdir mkdir, provisioning, frame extraction, the
reconstruction command (on `CalledProcessError` it exits with the
command's own return code, line 179), and artifact collection followed
by exit 0.  An uncaught error in provisioning or extraction terminates
the interpreter with exit code 1. -/
def meshMain (w : MeshWorld) : RunResult :=
  if ¬ w.videoExists then
    { exit := 1, state := .failed .videoCheck 1, trace := [], gpuIds := [],
      keptFrames := [], meshEnv := none, copied := [] }
  else
    let t1 := [Ev.mkdir "output"] ++ ensure_tools w.aptUpdateOk
      ++ ensure_ffmpeg w.ffmpegPresent w.aptUpdateOk ++ [Ev.nvidiaSmi]
    let detected := detect_gpus w.nvidiaSmi
    let gpuIds := if w.gpus = "auto" then detected else splitIds w.gpus
    let t2 := t1 ++ [Ev.mkdir "workdir"]
    let prov := download_meshroom w.meshroomPresent w.wgetExit w.tarExit
    let t3 := t2 ++ prov.trace
    if ¬ prov.ok then
      { exit := 1, state := .failed .provisioning 1, trace := t3, gpuIds := gpuIds,
        keptFrames := [], meshEnv := none, copied := [] }
    else
      match extract_frames (some w.maxFrames) w.ffmpegExit w.rawFrames with
      | (et, eok, kept) =>
        let t4 := t3 ++ et
        if ¬ eok then
          { exit := 1, state := .failed .frameExtraction 1, trace := t4,
            gpuIds := gpuIds, keptFrames := [], meshEnv := none, copied := [] }
        else
          let env := meshEnvOf w.baseEnv gpuIds w.cpuCount
          let t5 := t4 ++ [Ev.meshroomRun]
          if w.meshroomExit ≠ 0 then
            { exit := w.meshroomExit, state := .failed .reconstruction w.meshroomExit,
              trace := t5, gpuIds := gpuIds, keptFrames := kept,
              meshEnv := some env, copied := [] }
          else
            let copied := collectArtifacts w.cache
            { exit := 0, state := .completed,
              trace := t5 ++ [Ev.mkdir "final"] ++ copied.map Ev.copy,
              gpuIds := gpuIds, keptFrames := kept, meshEnv := some env,
              copied := copied }

/-- External-world outcomes driving one `new_mesh.py` run.  That script
has no CLI: the video path, FPS and `MAX_FRAMES = 300` are module
constants.  `workdirDirs` are the directories present in the workdir
when the provisioner scans for `Meshroom-` candidates; `exeFound` is
whether the walk finds `Meshroom_photogrammetry` in the chosen one. -/
structure NewMeshWorld where
  videoExists : Bool
  aptUpdateOk : Bool
  ffmpegPresent : Bool
  nvidiaSmi : Option String
  tgzExists : Bool
  wgetExit : Nat
  tarExit : Nat
  workdirDirs : List NodeDir
  exeFound : Bool
  ffmpegExit : Nat
  rawFrames : Nat
  baseEnv : List (String × String)
  meshroomExit : Nat
  cache : Option (List NodeDir)
  deriving Repr

/-- The `main` of `new_mesh.py` (lines 119-165).  Video check first
(lines 120-122, exit 1); then workdir and output mkdirs, best-effort
installs, GPU detection (its result is used directly — there is no
explicit-list policy), provisioning (always re-extracts), frame
extraction capped at the constant 300, the reconstruction command — on
`CalledProcessError` it exits with code 1 regardless of the command's
return code (line 152) — and artifact collection copying every matching
file, then exit 0. -/
def newMeshMain (w : NewMeshWorld) : RunResult :=
  if ¬ w.videoExists then
    { exit := 1, state := .failed .videoCheck 1, trace := [], gpuIds := [],
      keptFrames := [], meshEnv := none, copied := [] }
  else
    let t1 := [Ev.mkdir "workdir", Ev.mkdir "output"] ++ ensure_tools w.aptUpdateOk
      ++ ensure_ffmpeg w.ffmpegPresent w.aptUpdateOk ++ [Ev.nvidiaSmi]
    let gpuIds := detect_gpus w.nvidiaSmi
    let prov := new_download_meshroom w.tgzExists w.wgetExit w.tarExit
      w.workdirDirs w.exeFound
    let t2 := t1 ++ prov.trace
    if ¬ prov.ok then
      { exit := 1, state := .failed .provisioning 1, trace := t2, gpuIds := gpuIds,
        keptFrames := [], meshEnv := none, copied := [] }
    else
      match extract_frames (some 300) w.ffmpegExit w.rawFrames with
      | (et, eok, kept) =>
        let t3 := t2 ++ et
        if ¬ eok then
          { exit := 1, state := .failed .frameExtraction 1, trace := t3,
            gpuIds := gpuIds, keptFrames := [], meshEnv := none, copied := [] }
        else
          let env := newMeshEnvOf w.baseEnv gpuIds
          let t4 := t3 ++ [Ev.meshroomRun]
          if w.meshroomExit ≠ 0 then
            { exit := 1, state := .failed .reconstruction 1, trace := t4,
              gpuIds := gpuIds, keptFrames := kept, meshEnv := some env,
              copied := [] }
          else
            let copied := newCollectArtifacts w.cache
            { exit := 0, state := .completed,
              trace := t4 ++ [Ev.mkdir "final"] ++ copied.map Ev.copy,
              gpuIds := gpuIds, keptFrames := kept, meshEnv := some env,
              copied := copied }

/-- A mesh.py run whose source video is absent. -/
def noVideoWorld : MeshWorld :=
  { videoExists := false, gpus := "auto", maxFrames := 300, aptUpdateOk := true,
    ffmpegPresent := true, nvidiaSmi := none, meshroomPresent := false,
    wgetExit := 0, tarExit := 0, ffmpegExit := 0, rawFrames := 0, cpuCount := 4,
    baseEnv := [], meshroomExit := 0, cache := none }

/-- A new_mesh.py run whose source video is absent. -/
def noVideoWorldNew : NewMeshWorld :=
  { videoExists := false, aptUpdateOk := true, ffmpegPresent := true,
    nvidiaSmi := none, tgzExists := false, wgetExit := 0, tarExit := 0,
    workdirDirs := [], exeFound := false, ffmpegExit := 0, rawFrames := 0,
    baseEnv := [], meshroomExit := 0, cache := none }

/-- A mesh.py run in which the reconstruction command fails with exit
code 7 after successful provisioning and extraction. -/
def reconFailWorld : MeshWorld :=
  { videoExists := true, gpus := "auto", maxFrames := 300, aptUpdateOk := true,
    ffmpegPresent := true, nvidiaSmi := none, meshroomPresent := true,
    wgetExit := 0, tarExit := 0, ffmpegExit := 0, rawFrames := 2, cpuCount := 4,
    baseEnv := [], meshroomExit := 7, cache := none }

/-- A new_mesh.py run in which the reconstruction command fails with
exit code 7 after successful provisioning and extraction. -/
def reconFailWorldNew : NewMeshWorld :=
  { videoExists := true, aptUpdateOk := true, ffmpegPresent := true,
    nvidiaSmi := none, tgzExists := true, wgetExit := 0, tarExit := 0,
    workdirDirs := [{ name := "Meshroom-2025.1.0-Linux", mtime := 3, files := [] }],
    exeFound := true, ffmpegExit := 0, rawFrames := 2, baseEnv := [],
    meshroomExit := 7, cache := none }

/-- A mesh.py run with no GPU-detection tool available and every stage
succeeding. -/
def noGpuWorld : MeshWorld :=
  { videoExists := true, gpus := "auto", maxFrames := 300, aptUpdateOk := true,
    ffmpegPresent := true, nvidiaSmi := none, meshroomPresent := true,
    wgetExit := 0, tarExit := 0, ffmpegExit := 0, rawFrames := 2, cpuCount := 4,
    baseEnv := [], meshroomExit := 0, cache := none }

/-- A new_mesh.py run with no GPU-detection tool available and every
stage succeeding. -/
def noGpuWorldNew : NewMeshWorld :=
  { videoExists := true, aptUpdateOk := true, ffmpegPresent := true,
    nvidiaSmi := none, tgzExists := true, wgetExit := 0, tarExit := 0,
    workdirDirs := [{ name := "Meshroom-2025.1.0-Linux", mtime := 3, files := [] }],
    exeFound := true, ffmpegExit := 0, rawFrames := 2, baseEnv := [],
    meshroomExit := 0, cache := none }

/-- A mesh.py run with an explicit `--gpus 0,1` policy while the
detection query would report GPU `7`. -/
def explicitGpuWorld : MeshWorld :=
  { videoExists := true, gpus := "0,1", maxFrames := 300, aptUpdateOk := true,
    ffmpegPresent := true, nvidiaSmi := some "7", meshroomPresent := true,
    wgetExit := 0, tarExit := 0, ffmpegExit := 0, rawFrames := 2, cpuCount := 4,
    baseEnv := [], meshroomExit := 0, cache := none }

/-- The texturing node directory used in the C7 analysis: one mesh, one
material, and two texture files. -/
def texturingDir : NodeDir :=
  { name := "node", mtime := 5,
    files := ["mesh.obj", "mesh.mtl", "tex_0.png", "tex_1.png"] }

/-- An older sibling node directory for the C7 witness. -/
def olderDir : NodeDir := { name := "old", mtime := 2, files := ["stale.obj"] }

/-- A new_mesh.py run that detects GPU `0`, succeeds everywhere, and
starts from an empty inherited environment. -/
def gpuEnvWorldNew : NewMeshWorld :=
  { videoExists := true, aptUpdateOk := true, ffmpegPresent := true,
    nvidiaSmi := some "0", tgzExists := true, wgetExit := 0, tarExit := 0,
    workdirDirs := [{ name := "Meshroom-2025.1.0-Linux", mtime := 3, files := [] }],
    exeFound := true, ffmpegExit := 0, rawFrames := 2, baseEnv := [],
    meshroomExit := 0, cache := none }

/-- A mesh.py run detecting GPU `0` with 4 logical CPUs and an empty
inherited environment. -/
def gpuEnvWorld : MeshWorld :=
  { videoExists := true, gpus := "auto", maxFrames := 300, aptUpdateOk := true,
    ffmpegPresent := true, nvidiaSmi := some "0", meshroomPresent := true,
    wgetExit := 0, tarExit := 0, ffmpegExit := 0, rawFrames := 2, cpuCount := 4,
    baseEnv := [], meshroomExit := 0, cache := none }

/-! Helper lemmas about contiguous index ranges. -/

theorem range'_take (s k n : Nat) (h : k ≤ n) :
    (List.range' s n).take k = List.range' s k := by
  induction n generalizing s k with
  | zero =>
    have : k = 0 := Nat.le_zero.mp h
    subst this; simp
  | succ n ih =>
    cases k with
    | zero => simp
    | succ k =>
      rw [List.range'_succ, List.range'_succ, List.take_succ_cons,
        ih (s + 1) k (Nat.succ_le_succ_iff.mp h)]

theorem range'_drop (s k n : Nat) (h : k ≤ n) :
    (List.range' s n).drop k = List.range' (s + k) (n - k) := by
  induction k generalizing s n with
  | zero => simp
  | succ k ih =>
    cases n with
    | zero => exact absurd h (by omega)
    | succ n =>
      rw [List.range'_succ, List.drop_succ_cons,
        ih (s + 1) n (Nat.succ_le_succ_iff.mp h)]
      congr 1 <;> omega

/-- Claim C9: when the configured maximum frame count is None, zero, or
negative, frame capping is skipped entirely: the kept set is the whole
extracted set and no frame file is unlinked (in particular
`max_frames = 0` does not delete all frames). -/
theorem cap_skipped_nonpositive (m : Int) (frames : List Nat) (h : m ≤ 0) :
    capFrames (some m) frames = frames ∧ dropFrames (some m) frames = [] ∧
    capFrames none frames = frames ∧ dropFrames none frames = [] := by
  refine ⟨?_, ?_, rfl, rfl⟩ <;>
    simp [capFrames, dropFrames, show ¬ (0 : Int) < m from not_lt.mpr h]

/-- Witness for `cap_skipped_nonpositive` at `max_frames = 0` over three
extracted frames. -/
theorem cap_skipped_nonpositive_witness :
    capFrames (some 0) [1, 2, 3] = [1, 2, 3] ∧
    dropFrames (some 0) [1, 2, 3] = [] ∧
    capFrames none [1, 2, 3] = [1, 2, 3] ∧
    dropFrames none [1, 2, 3] = [] :=
  cap_skipped_nonpositive 0 [1, 2, 3] (by decide)

/-- Claim C1 counterexample: with `max_frames = 0` and one raw extracted frame,
`max_frames ≤ raw_extracted_count` holds, yet the kept frame set is the
whole set (size 1), not of size `max_frames = 0`: the capping branch is
guarded by `max_frames > 0`, so the claim fails as stated. -/
theorem cap_claim_counterexample :
    (0 : Int) ≤ ((List.range' 1 1).length : Int) ∧
    capFrames (some 0) (List.range' 1 1) = [1] ∧
    (capFrames (some 0) (List.range' 1 1)).length ≠ 0 := by decide

/-- Claim C1 (amended): for every POSITIVE `max_frames`, if
`max_frames ≤ raw_extracted_count` the kept frame set is exactly the
chronologically first frames `1..max_frames` (size `max_frames`), and
every higher-indexed frame `max_frames+1..N` is unlinked; if
`max_frames ≥ raw_extracted_count`, no frame is removed and the kept
set is the whole extracted range. -/
theorem frame_cap_first_n (m : Int) (N : Nat) (hm : 0 < m) :
    (m ≤ (N : Int) →
      capFrames (some m) (List.range' 1 N) = List.range' 1 m.toNat ∧
      (capFrames (some m) (List.range' 1 N)).length = m.toNat ∧
      dropFrames (some m) (List.range' 1 N) =
        List.range' (1 + m.toNat) (N - m.toNat)) ∧
    ((N : Int) ≤ m →
      capFrames (some m) (List.range' 1 N) = List.range' 1 N ∧
      dropFrames (some m) (List.range' 1 N) = []) := by
  constructor
  · intro hN
    have hmN : m.toNat ≤ N := by omega
    by_cases hlt : ((List.range' 1 N).length : Int) > m
    · have hcap : capFrames (some m) (List.range' 1 N) = List.range' 1 m.toNat := by
        simp only [capFrames, hm, if_pos, hlt]
        exact range'_take 1 m.toNat N hmN
      refine ⟨hcap, ?_, ?_⟩
      · rw [hcap, List.length_range']
      · simp only [dropFrames, hm, if_pos, hlt]
        exact range'_drop 1 m.toNat N hmN
    · have hEq : m.toNat = N := by
        rw [List.length_range'] at hlt; omega
      have hcap : capFrames (some m) (List.range' 1 N) = List.range' 1 N := by
        simp only [capFrames]
        rw [if_pos hm, if_neg hlt]
      refine ⟨by rw [hcap, hEq], by rw [hcap, List.length_range', hEq], ?_⟩
      simp only [dropFrames]
      rw [if_pos hm, if_neg hlt, hEq, Nat.sub_self]
      rfl
  · intro hN
    have hlt : ¬ ((List.range' 1 N).length : Int) > m := by
      rw [List.length_range']; omega
    constructor
    · simp only [capFrames]
      rw [if_pos hm, if_neg hlt]
    · simp only [dropFrames]
      rw [if_pos hm, if_neg hlt]

/-- Witness for `frame_cap_first_n`: capping 5 raw frames to 3 keeps
frames 1..3 and unlinks frames 4..5; a cap of 7 over 5 raw frames
removes nothing. -/
theorem frame_cap_first_n_witness :
    (capFrames (some 3) (List.range' 1 5) = List.range' 1 (Int.toNat 3) ∧
      (capFrames (some 3) (List.range' 1 5)).length = Int.toNat 3 ∧
      dropFrames (some 3) (List.range' 1 5) =
        List.range' (1 + Int.toNat 3) (5 - Int.toNat 3)) ∧
    (capFrames (some 7) (List.range' 1 5) = List.range' 1 5 ∧
      dropFrames (some 7) (List.range' 1 5) = []) :=
  ⟨(frame_cap_first_n 3 5 (by decide)).1 (by decide),
   (frame_cap_first_n 7 5 (by decide)).2 (by decide)⟩

/-- On every call of new_mesh.py's provisioner with the archive already
present, the effect trace is `[tar]` or `[tar, chmod]`: the download is
skipped but the extraction always runs. -/
theorem new_download_trace_cases (wgetExit tarExit : Nat)
    (dirs : List NodeDir) (exeFound : Bool) :
    (new_download_meshroom true wgetExit tarExit dirs exeFound).trace = [Ev.tar] ∨
    (new_download_meshroom true wgetExit tarExit dirs exeFound).trace
      = [Ev.tar, Ev.chmod] := by
  by_cases ht : tarExit = 0
  · cases hm : maxByMtime (dirs.filter (fun p => pyStartsWith p.name "Meshroom-")) with
    | none => left; simp [new_download_meshroom, ht, hm]
    | some d =>
      cases exeFound with
      | true => right; simp [new_download_meshroom, ht, hm]
      | false => left; simp [new_download_meshroom, ht, hm]
  · left; simp [new_download_meshroom, ht]

/-- Claim C3 counterexample: new_mesh.py's provisioner is not idempotent — on
a second invocation with the archive (and even the executable) already
present in the target directory, it still performs the `tar` extraction. -/
theorem provisioner_reextract_counterexample :
    Ev.tar ∈ (new_download_meshroom true 0 0
      [⟨"Meshroom-2025.1.0-Linux", 3, []⟩] true).trace ∧
    (new_download_meshroom true 0 0
      [⟨"Meshroom-2025.1.0-Linux", 3, []⟩] true).ok = true := by decide

/-- Claim C3 (amended): mesh.py's provisioner is idempotent — when the
executable is already present it performs no download and no extraction
(its effect trace is empty) and returns the same toolchain path that any
successful call returns; new_mesh.py's provisioner skips only the
download when the archive is present and re-runs the extraction on every
call. -/
theorem provisioner_idempotence (wgetExit tarExit : Nat)
    (dirs : List NodeDir) (exeFound : Bool) :
    (download_meshroom true wgetExit tarExit).trace = [] ∧
    (download_meshroom true wgetExit tarExit).path = MESHROOM_DIRNAME ∧
    (∀ b, (download_meshroom b wgetExit tarExit).ok = true →
      (download_meshroom b wgetExit tarExit).path = MESHROOM_DIRNAME) ∧
    (∀ url, Ev.wget url ∉
      (new_download_meshroom true wgetExit tarExit dirs exeFound).trace) ∧
    Ev.tar ∈ (new_download_meshroom true wgetExit tarExit dirs exeFound).trace := by
  refine ⟨by simp [download_meshroom], by simp [download_meshroom], ?_, ?_, ?_⟩
  · intro b h
    cases b with
    | true => simp [download_meshroom]
    | false =>
      by_cases hw : wgetExit = 0
      · by_cases ht : tarExit = 0
        · simp [download_meshroom, hw, ht]
        · simp [download_meshroom, hw, ht] at h
      · simp [download_meshroom, hw] at h
  · intro url hmem
    rcases new_download_trace_cases wgetExit tarExit dirs exeFound with h | h <;>
      rw [h] at hmem <;> simp at hmem
  · rcases new_download_trace_cases wgetExit tarExit dirs exeFound with h | h <;>
      rw [h] <;> simp

/-! Helper lemmas evaluating the two `main`s along the paths the claims
are about. -/

theorem meshMain_success (w : MeshWorld) (hv : w.videoExists = true)
    (hok : (download_meshroom w.meshroomPresent w.wgetExit w.tarExit).ok = true)
    (hf : w.ffmpegExit = 0) (hm : w.meshroomExit = 0) :
    (meshMain w).exit = 0 ∧ (meshMain w).state = PState.completed ∧
    (meshMain w).gpuIds
      = (if w.gpus = "auto" then detect_gpus w.nvidiaSmi else splitIds w.gpus) ∧
    (meshMain w).meshEnv = some (meshEnvOf w.baseEnv (meshMain w).gpuIds w.cpuCount) ∧
    (meshMain w).copied = collectArtifacts w.cache ∧
    (meshMain w).keptFrames = capFrames (some w.maxFrames) (List.range' 1 w.rawFrames) ∧
    Ev.nvidiaSmi ∈ (meshMain w).trace := by
  simp only [meshMain, hv, hok, hf, hm, extract_frames]
  norm_num

theorem newMeshMain_success (w : NewMeshWorld) (hv : w.videoExists = true)
    (hok : (new_download_meshroom w.tgzExists w.wgetExit w.tarExit
      w.workdirDirs w.exeFound).ok = true)
    (hf : w.ffmpegExit = 0) (hm : w.meshroomExit = 0) :
    (newMeshMain w).exit = 0 ∧ (newMeshMain w).state = PState.completed ∧
    (newMeshMain w).gpuIds = detect_gpus w.nvidiaSmi ∧
    (newMeshMain w).meshEnv = some (newMeshEnvOf w.baseEnv (newMeshMain w).gpuIds) ∧
    (newMeshMain w).copied = newCollectArtifacts w.cache ∧
    (newMeshMain w).keptFrames = capFrames (some 300) (List.range' 1 w.rawFrames) ∧
    Ev.nvidiaSmi ∈ (newMeshMain w).trace := by
  simp only [newMeshMain, hv, hok, hf, hm, extract_frames]
  norm_num

theorem mem_ensure_tools (x : Ev) (b : Bool) (h : x ∈ ensure_tools b) :
    x = Ev.aptUpdate ∨ x = Ev.aptInstall TOOL_PKGS := by
  cases b <;> simp [ensure_tools, apt_install] at h <;> tauto

theorem mem_ensure_ffmpeg (x : Ev) (c b : Bool) (h : x ∈ ensure_ffmpeg c b) :
    x = Ev.ffmpegVersion ∨ x = Ev.aptUpdate ∨ x = Ev.aptInstall ["ffmpeg"] := by
  cases c <;> cases b <;> simp [ensure_ffmpeg, apt_install] at h <;> tauto

theorem mem_download_trace (x : Ev) (b : Bool) (wg t : Nat)
    (h : x ∈ (download_meshroom b wg t).trace) :
    x = Ev.wget "meshroom-tgz" ∨ x = Ev.tar ∨ x = Ev.chmod := by
  cases b
  · by_cases hw : wg = 0
    · by_cases ht : t = 0 <;> simp [download_meshroom, hw, ht] at h <;> tauto
    · simp [download_meshroom, hw] at h; tauto
  · simp [download_meshroom] at h

theorem mem_new_download_trace (x : Ev) (tg : Bool) (wg t : Nat)
    (dirs : List NodeDir) (e : Bool)
    (h : x ∈ (new_download_meshroom tg wg t dirs e).trace) :
    x = Ev.wget "meshroom-tgz" ∨ x = Ev.tar ∨ x = Ev.chmod := by
  by_cases hw : wg = 0 <;> by_cases ht : t = 0 <;> cases tg <;>
    cases hm : maxByMtime (dirs.filter (fun p => pyStartsWith p.name "Meshroom-")) <;>
      cases e <;>
        simp [new_download_meshroom, hw, ht, hm] at h <;> tauto

theorem copy_not_mem_ensure_tools (f : String) (b : Bool) :
    Ev.copy f ∉ ensure_tools b := by
  intro h; rcases mem_ensure_tools _ _ h with h | h <;> simp at h

theorem copy_not_mem_ensure_ffmpeg (f : String) (c b : Bool) :
    Ev.copy f ∉ ensure_ffmpeg c b := by
  intro h; rcases mem_ensure_ffmpeg _ _ _ h with h | h | h <;> simp at h

theorem copy_not_mem_download (f : String) (b : Bool) (wg t : Nat) :
    Ev.copy f ∉ (download_meshroom b wg t).trace := by
  intro h; rcases mem_download_trace _ _ _ _ h with h | h | h <;> simp at h

theorem copy_not_mem_new_download (f : String) (tg : Bool) (wg t : Nat)
    (dirs : List NodeDir) (e : Bool) :
    Ev.copy f ∉ (new_download_meshroom tg wg t dirs e).trace := by
  intro h; rcases mem_new_download_trace _ _ _ _ _ _ h with h | h | h <;> simp at h

theorem mkdirFinal_not_mem_ensure_tools (b : Bool) :
    Ev.mkdir "final" ∉ ensure_tools b := by
  intro h; rcases mem_ensure_tools _ _ h with h | h <;> simp at h

theorem mkdirFinal_not_mem_ensure_ffmpeg (c b : Bool) :
    Ev.mkdir "final" ∉ ensure_ffmpeg c b := by
  intro h; rcases mem_ensure_ffmpeg _ _ _ h with h | h | h <;> simp at h

theorem mkdirFinal_not_mem_download (b : Bool) (wg t : Nat) :
    Ev.mkdir "final" ∉ (download_meshroom b wg t).trace := by
  intro h; rcases mem_download_trace _ _ _ _ h with h | h | h <;> simp at h

theorem mkdirFinal_not_mem_new_download (tg : Bool) (wg t : Nat)
    (dirs : List NodeDir) (e : Bool) :
    Ev.mkdir "final" ∉ (new_download_meshroom tg wg t dirs e).trace := by
  intro h; rcases mem_new_download_trace _ _ _ _ _ _ h with h | h | h <;> simp at h

theorem meshMain_recon_failure (w : MeshWorld) (hv : w.videoExists = true)
    (hok : (download_meshroom w.meshroomPresent w.wgetExit w.tarExit).ok = true)
    (hf : w.ffmpegExit = 0) (hm : w.meshroomExit ≠ 0) :
    (meshMain w).exit = w.meshroomExit ∧
    (meshMain w).state = PState.failed StageName.reconstruction w.meshroomExit ∧
    (meshMain w).copied = [] ∧
    (meshMain w).gpuIds
      = (if w.gpus = "auto" then detect_gpus w.nvidiaSmi else splitIds w.gpus) ∧
    (meshMain w).meshEnv = some (meshEnvOf w.baseEnv (meshMain w).gpuIds w.cpuCount) ∧
    (∀ f, Ev.copy f ∉ (meshMain w).trace) ∧
    Ev.mkdir "final" ∉ (meshMain w).trace := by
  simp only [meshMain, hv, hok, hf, extract_frames]
  norm_num
  rw [if_neg hm]
  refine ⟨rfl, rfl, rfl, rfl, rfl, ?_, ?_⟩
  · intro f hmem
    simp [copy_not_mem_ensure_tools, copy_not_mem_ensure_ffmpeg,
      copy_not_mem_download] at hmem
  · intro hmem
    simp [mkdirFinal_not_mem_ensure_tools, mkdirFinal_not_mem_ensure_ffmpeg,
      mkdirFinal_not_mem_download] at hmem

theorem newMeshMain_recon_failure (w : NewMeshWorld) (hv : w.videoExists = true)
    (hok : (new_download_meshroom w.tgzExists w.wgetExit w.tarExit
      w.workdirDirs w.exeFound).ok = true)
    (hf : w.ffmpegExit = 0) (hm : w.meshroomExit ≠ 0) :
    (newMeshMain w).exit = 1 ∧
    (newMeshMain w).state = PState.failed StageName.reconstruction 1 ∧
    (newMeshMain w).copied = [] ∧
    (newMeshMain w).gpuIds = detect_gpus w.nvidiaSmi ∧
    (newMeshMain w).meshEnv = some (newMeshEnvOf w.baseEnv (newMeshMain w).gpuIds) ∧
    (∀ f, Ev.copy f ∉ (newMeshMain w).trace) ∧
    Ev.mkdir "final" ∉ (newMeshMain w).trace := by
  simp only [newMeshMain, hv, hok, hf, extract_frames]
  norm_num
  rw [if_neg hm]
  refine ⟨rfl, rfl, rfl, rfl, rfl, ?_, ?_⟩
  · intro f hmem
    simp [copy_not_mem_ensure_tools, copy_not_mem_ensure_ffmpeg,
      copy_not_mem_new_download] at hmem
  · intro hmem
    simp [mkdirFinal_not_mem_ensure_tools, mkdirFinal_not_mem_ensure_ffmpeg,
      mkdirFinal_not_mem_new_download] at hmem

/-- Claim C10: when the source video path does not exist, both orchestrators
exit with code 1 before any provisioning, detection, extraction or
reconstruction stage runs, and perform no effect at all (in particular
nothing is written under the working directory: the trace is empty). -/
theorem missing_video_aborts (w : MeshWorld) (w' : NewMeshWorld)
    (h : w.videoExists = false) (h' : w'.videoExists = false) :
    (meshMain w).exit = 1 ∧ (meshMain w).trace = [] ∧
    (meshMain w).state = PState.failed StageName.videoCheck 1 ∧
    (newMeshMain w').exit = 1 ∧ (newMeshMain w').trace = [] ∧
    (newMeshMain w').state = PState.failed StageName.videoCheck 1 := by
  refine ⟨?_, ?_, ?_, ?_, ?_, ?_⟩ <;> simp [meshMain, newMeshMain, h, h']

/-- Witness for `missing_video_aborts` on concrete runs. -/
theorem missing_video_aborts_witness :
    (meshMain noVideoWorld).exit = 1 ∧ (meshMain noVideoWorld).trace = [] ∧
    (meshMain noVideoWorld).state = PState.failed StageName.videoCheck 1 ∧
    (newMeshMain noVideoWorldNew).exit = 1 ∧
    (newMeshMain noVideoWorldNew).trace = [] ∧
    (newMeshMain noVideoWorldNew).state = PState.failed StageName.videoCheck 1 :=
  missing_video_aborts noVideoWorld noVideoWorldNew rfl rfl

/-- Claim C2 counterexample: in new_mesh.py a reconstruction-stage failure
with exit code 7 makes the process exit with code 1, not 7
(`except ... sys.exit(1)`, new_mesh.py line 152), so the process exit
code does not equal the stage's exit code. -/
theorem recon_failure_exit_counterexample :
    reconFailWorldNew.meshroomExit = 7 ∧
    (newMeshMain reconFailWorldNew).state
      = PState.failed StageName.reconstruction 1 ∧
    (newMeshMain reconFailWorldNew).exit = 1 ∧
    (newMeshMain reconFailWorldNew).exit ≠ reconFailWorldNew.meshroomExit := by
  decide

/-- Claim C2 (amended): when the fatal reconstruction stage's external command
exits with code `k ≠ 0`, both orchestrators transition to `Failed` at the
reconstruction stage and execute no later stage (artifact collection
never runs: no copy and no `final/` mkdir appears in the trace); the
process exit code equals `k` in mesh.py, but in new_mesh.py it is the
constant 1 regardless of `k`. -/
theorem recon_failure_exit_code (w : MeshWorld) (w' : NewMeshWorld) (k : Nat)
    (hv : w.videoExists = true)
    (hok : (download_meshroom w.meshroomPresent w.wgetExit w.tarExit).ok = true)
    (hf : w.ffmpegExit = 0) (hk : w.meshroomExit = k) (hk0 : k ≠ 0)
    (hv' : w'.videoExists = true)
    (hok' : (new_download_meshroom w'.tgzExists w'.wgetExit w'.tarExit
      w'.workdirDirs w'.exeFound).ok = true)
    (hf' : w'.ffmpegExit = 0) (hk' : w'.meshroomExit = k) :
    (meshMain w).exit = k ∧
    (meshMain w).state = PState.failed StageName.reconstruction k ∧
    (∀ f, Ev.copy f ∉ (meshMain w).trace) ∧
    Ev.mkdir "final" ∉ (meshMain w).trace ∧
    (meshMain w).copied = [] ∧
    (newMeshMain w').exit = 1 ∧
    (newMeshMain w').state = PState.failed StageName.reconstruction 1 ∧
    (∀ f, Ev.copy f ∉ (newMeshMain w').trace) ∧
    Ev.mkdir "final" ∉ (newMeshMain w').trace ∧
    (newMeshMain w').copied = [] := by
  obtain ⟨e1, e2, e3, -, -, e6, e7⟩ :=
    meshMain_recon_failure w hv hok hf (by rw [hk]; exact hk0)
  obtain ⟨n1, n2, n3, -, -, n6, n7⟩ :=
    newMeshMain_recon_failure w' hv' hok' hf' (by rw [hk']; exact hk0)
  exact ⟨by rw [e1, hk], by rw [e2, hk], e6, e7, e3, n1, n2, n6, n7, n3⟩

/-- Witness for `recon_failure_exit_code` on the concrete failing runs
with stage exit code 7. -/
theorem recon_failure_exit_code_witness :
    (meshMain reconFailWorld).exit = 7 ∧
    (meshMain reconFailWorld).state = PState.failed StageName.reconstruction 7 ∧
    (∀ f, Ev.copy f ∉ (meshMain reconFailWorld).trace) ∧
    Ev.mkdir "final" ∉ (meshMain reconFailWorld).trace ∧
    (meshMain reconFailWorld).copied = [] ∧
    (newMeshMain reconFailWorldNew).exit = 1 ∧
    (newMeshMain reconFailWorldNew).state
      = PState.failed StageName.reconstruction 1 ∧
    (∀ f, Ev.copy f ∉ (newMeshMain reconFailWorldNew).trace) ∧
    Ev.mkdir "final" ∉ (newMeshMain reconFailWorldNew).trace ∧
    (newMeshMain reconFailWorldNew).copied = [] :=
  recon_failure_exit_code reconFailWorld reconFailWorldNew 7 rfl (by decide)
    rfl rfl (by decide) rfl (by decide) rfl rfl

/-- Claim C4: ResourceDetector never fails the Job.  `detect_gpus` is a total
function: a raised query (`none`) and empty output both degrade to the
empty list; and a run whose detection found nothing still completes with
exit code 0 when the remaining stages succeed (the empty accelerator set
causes no failure by itself), in both orchestrators. -/
theorem resource_detector_degrades (w : MeshWorld) (w' : NewMeshWorld)
    (hg : w.gpus = "auto") (hn : w.nvidiaSmi = none)
    (hv : w.videoExists = true)
    (hok : (download_meshroom w.meshroomPresent w.wgetExit w.tarExit).ok = true)
    (hf : w.ffmpegExit = 0) (hm : w.meshroomExit = 0)
    (hn' : w'.nvidiaSmi = none) (hv' : w'.videoExists = true)
    (hok' : (new_download_meshroom w'.tgzExists w'.wgetExit w'.tarExit
      w'.workdirDirs w'.exeFound).ok = true)
    (hf' : w'.ffmpegExit = 0) (hm' : w'.meshroomExit = 0) :
    detect_gpus none = [] ∧
    detect_gpus (some "") = [] ∧
    (meshMain w).gpuIds = [] ∧ (meshMain w).state = PState.completed ∧
    (meshMain w).exit = 0 ∧
    (newMeshMain w').gpuIds = [] ∧ (newMeshMain w').state = PState.completed ∧
    (newMeshMain w').exit = 0 := by
  obtain ⟨e1, e2, e3, -, -, -, -⟩ := meshMain_success w hv hok hf hm
  obtain ⟨n1, n2, n3, -, -, -, -⟩ := newMeshMain_success w' hv' hok' hf' hm'
  refine ⟨rfl, by decide, ?_, e2, e1, ?_, n2, n1⟩
  · rw [e3, hg, hn]; simp [detect_gpus]
  · rw [n3, hn']; rfl

/-- Witness for `resource_detector_degrades` on concrete
detection-tool-absent runs. -/
theorem resource_detector_degrades_witness :
    detect_gpus none = [] ∧
    detect_gpus (some "") = [] ∧
    (meshMain noGpuWorld).gpuIds = [] ∧
    (meshMain noGpuWorld).state = PState.completed ∧
    (meshMain noGpuWorld).exit = 0 ∧
    (newMeshMain noGpuWorldNew).gpuIds = [] ∧
    (newMeshMain noGpuWorldNew).state = PState.completed ∧
    (newMeshMain noGpuWorldNew).exit = 0 :=
  resource_detector_degrades noGpuWorld noGpuWorldNew rfl rfl rfl (by decide)
    rfl rfl rfl rfl (by decide) rfl rfl

/-- Claim C6: when the reconstruction stages all succeed, the pipeline is
`Completed` with process exit code 0 for EVERY state of the toolchain
cache — including a missing texturing directory (`none`), no node
directories, or node directories with zero matching artifact files:
artifact collection never changes the outcome, in either orchestrator. -/
theorem artifact_collector_preserves_completion (w : MeshWorld)
    (w' : NewMeshWorld)
    (hv : w.videoExists = true)
    (hok : (download_meshroom w.meshroomPresent w.wgetExit w.tarExit).ok = true)
    (hf : w.ffmpegExit = 0) (hm : w.meshroomExit = 0)
    (hv' : w'.videoExists = true)
    (hok' : (new_download_meshroom w'.tgzExists w'.wgetExit w'.tarExit
      w'.workdirDirs w'.exeFound).ok = true)
    (hf' : w'.ffmpegExit = 0) (hm' : w'.meshroomExit = 0) :
    (∀ c, (meshMain { w with cache := c }).state = PState.completed ∧
      (meshMain { w with cache := c }).exit = 0) ∧
    (∀ c, (newMeshMain { w' with cache := c }).state = PState.completed ∧
      (newMeshMain { w' with cache := c }).exit = 0) := by
  constructor
  · intro c
    obtain ⟨e1, e2, -, -, -, -, -⟩ :=
      meshMain_success { w with cache := c } hv hok hf hm
    exact ⟨e2, e1⟩
  · intro c
    obtain ⟨n1, n2, -, -, -, -, -⟩ :=
      newMeshMain_success { w' with cache := c } hv' hok' hf' hm'
    exact ⟨n2, n1⟩

/-- Witness for `artifact_collector_preserves_completion` on concrete
fully-succeeding runs. -/
theorem artifact_collector_preserves_completion_witness :
    (∀ c, (meshMain { noGpuWorld with cache := c }).state = PState.completed ∧
      (meshMain { noGpuWorld with cache := c }).exit = 0) ∧
    (∀ c, (newMeshMain { noGpuWorldNew with cache := c }).state
        = PState.completed ∧
      (newMeshMain { noGpuWorldNew with cache := c }).exit = 0) :=
  artifact_collector_preserves_completion noGpuWorld noGpuWorldNew rfl
    (by decide) rfl rfl rfl (by decide) rfl rfl

/-- In every mesh.py run with an existing video, the GPU-detection query
is executed (its invocation is unconditional, mesh.py line 126), and the
selected id list follows the `--gpus` policy. -/
theorem meshMain_always_detects (w : MeshWorld) (hv : w.videoExists = true) :
    Ev.nvidiaSmi ∈ (meshMain w).trace ∧
    (meshMain w).gpuIds
      = (if w.gpus = "auto" then detect_gpus w.nvidiaSmi else splitIds w.gpus) := by
  cases hok : (download_meshroom w.meshroomPresent w.wgetExit w.tarExit).ok with
  | false =>
    simp only [meshMain, hv, hok, extract_frames]
    norm_num
  | true =>
    by_cases hf : w.ffmpegExit = 0
    · by_cases hm : w.meshroomExit = 0
      · simp only [meshMain, hv, hok, hf, hm, extract_frames]
        norm_num
      · simp only [meshMain, hv, hok, hf, extract_frames]
        norm_num
        rw [if_neg hm]
        simp
    · simp only [meshMain, hv, hok, extract_frames]
      norm_num
      rw [if_neg hf]
      simp

/-- Claim C5 counterexample: in mesh.py the accelerator-detection query is
invoked unconditionally (line 126), BEFORE the policy branch — even with
the explicit policy `--gpus 0,1` the trace contains the `nvidia-smi`
invocation, so detection is not "skipped entirely"; its result (`7`
here) is merely discarded in favour of the verbatim explicit list. -/
theorem explicit_gpu_detection_counterexample :
    explicitGpuWorld.gpus ≠ "auto" ∧
    Ev.nvidiaSmi ∈ (meshMain explicitGpuWorld).trace ∧
    (meshMain explicitGpuWorld).gpuIds = ["0", "1"] ∧
    detect_gpus explicitGpuWorld.nvidiaSmi = ["7"] := by decide

/-- Claim C5 (amended): when the `--gpus` policy is an explicit id list rather
than `auto`, the detection query is STILL invoked but its result is
discarded; the explicit list is split on commas and used verbatim, with
no validation that the ids exist (the selection is a pure function of
the argument string, independent of the detection outcome). -/
theorem explicit_gpu_policy (w : MeshWorld) (hv : w.videoExists = true)
    (hg : w.gpus ≠ "auto") :
    Ev.nvidiaSmi ∈ (meshMain w).trace ∧
    (meshMain w).gpuIds = splitIds w.gpus := by
  obtain ⟨h1, h2⟩ := meshMain_always_detects w hv
  exact ⟨h1, by rw [h2, if_neg hg]⟩

/-- Witness for `explicit_gpu_policy` on the concrete explicit-policy
run. -/
theorem explicit_gpu_policy_witness :
    Ev.nvidiaSmi ∈ (meshMain explicitGpuWorld).trace ∧
    (meshMain explicitGpuWorld).gpuIds = splitIds explicitGpuWorld.gpus :=
  explicit_gpu_policy explicitGpuWorld rfl (by decide)

theorem foldl_mtime_aux (t : List NodeDir) (a : NodeDir) :
    (t.foldl (fun cur x => if x.mtime > cur.mtime then x else cur) a = a ∨
      t.foldl (fun cur x => if x.mtime > cur.mtime then x else cur) a ∈ t) ∧
    a.mtime ≤ (t.foldl (fun cur x => if x.mtime > cur.mtime then x else cur) a).mtime ∧
    ∀ x ∈ t,
      x.mtime ≤ (t.foldl (fun cur x => if x.mtime > cur.mtime then x else cur) a).mtime := by
  induction t generalizing a with
  | nil => simp
  | cons b t ih =>
    simp only [List.foldl_cons]
    obtain ⟨m1, m2, m3⟩ := ih (if b.mtime > a.mtime then b else a)
    have hstep : a.mtime ≤ (if b.mtime > a.mtime then b else a).mtime ∧
        b.mtime ≤ (if b.mtime > a.mtime then b else a).mtime := by
      by_cases hb : b.mtime > a.mtime
      · rw [if_pos hb]; omega
      · rw [if_neg hb]; omega
    refine ⟨?_, le_trans hstep.1 m2, ?_⟩
    · rcases m1 with h | h
      · rw [h]
        by_cases hb : b.mtime > a.mtime
        · rw [if_pos hb]; right; exact List.mem_cons_self b t
        · rw [if_neg hb]; left; rfl
      · right; exact List.mem_cons_of_mem b h
    · intro x hx
      rcases List.mem_cons.mp hx with h | h
      · rw [h]; exact le_trans hstep.2 m2
      · exact m3 x h

theorem maxByMtime_spec (ds : List NodeDir) (d : NodeDir)
    (h : maxByMtime ds = some d) :
    d ∈ ds ∧ ∀ x ∈ ds, x.mtime ≤ d.mtime := by
  cases ds with
  | nil => cases h
  | cons a t =>
    simp only [maxByMtime, Option.some.injEq] at h
    obtain ⟨m1, m2, m3⟩ := foldl_mtime_aux t a
    rw [h] at m1 m2 m3
    constructor
    · rcases m1 with h1 | h1
      · rw [h1]; exact List.mem_cons_self a t
      · exact List.mem_cons_of_mem a h1
    · intro x hx
      rcases List.mem_cons.mp hx with h1 | h1
      · rw [h1]; exact m2
      · exact m3 x h1

theorem lastMatching_aux (ext : String) (files : List String)
    (acc : Option String) (f : String)
    (h : files.foldl (fun acc g => if pyEndsWith g ext then some g else acc) acc
      = some f) :
    (f ∈ files ∧ pyEndsWith f ext = true) ∨ acc = some f := by
  induction files generalizing acc with
  | nil => right; exact h
  | cons g t ih =>
    simp only [List.foldl_cons] at h
    rcases ih _ h with ⟨hm, he⟩ | hacc
    · exact Or.inl ⟨List.mem_cons_of_mem g hm, he⟩
    · by_cases hg : pyEndsWith g ext = true
      · rw [if_pos hg] at hacc
        obtain rfl : g = f := Option.some.injEq g f ▸ hacc
        exact Or.inl ⟨List.mem_cons_self g t, hg⟩
      · rw [if_neg hg] at hacc
        exact Or.inr hacc

theorem lastMatching_spec (ext : String) (files : List String) (f : String)
    (h : lastMatching ext files = some f) :
    f ∈ files ∧ pyEndsWith f ext = true := by
  rcases lastMatching_aux ext files none f h with h' | h'
  · exact h'
  · cases h'

/-- Claim C7 counterexample: in mesh.py the glob loops keep only the LAST file
matching each extension (`for f in latest.glob("*.png"): textured_png = f`,
lines 193-198), so when the selected texturing directory holds two
texture files, only one of them is copied — `tex_0.png` is a `.png` file
of the most recent directory yet absent from the copied set, refuting
"copies every texture file found". -/
theorem artifact_single_copy_counterexample :
    maxByMtime [texturingDir] = some texturingDir ∧
    "tex_0.png" ∈ texturingDir.files ∧
    pyEndsWith "tex_0.png" ".png" = true ∧
    collectArtifacts (some [texturingDir]) = ["mesh.obj", "mesh.mtl", "tex_1.png"] ∧
    "tex_0.png" ∉ collectArtifacts (some [texturingDir]) := by decide

/-- Claim C7 (amended): both collectors select a most-recently-modified node
directory of the texturing cache and copy (via `shutil.copy2`, never a
move) into `final/`, preserving filenames; new_mesh.py copies exactly
the files of that directory matching `.obj`/`.mtl`/`.png`, while mesh.py
copies at most one file per category — the last match of each glob — so
at most three files, each taken from that directory. -/
theorem artifact_collection_spec (dirs : List NodeDir) (latest : NodeDir)
    (h : maxByMtime dirs = some latest) :
    latest ∈ dirs ∧ (∀ d ∈ dirs, d.mtime ≤ latest.mtime) ∧
    (∀ f, f ∈ newCollectArtifacts (some dirs) ↔
      f ∈ latest.files ∧ (pyEndsWith f ".obj" = true ∨
        pyEndsWith f ".mtl" = true ∨ pyEndsWith f ".png" = true)) ∧
    (∀ f ∈ collectArtifacts (some dirs),
      f ∈ latest.files ∧ (pyEndsWith f ".obj" = true ∨
        pyEndsWith f ".mtl" = true ∨ pyEndsWith f ".png" = true)) ∧
    (collectArtifacts (some dirs)).length ≤ 3 := by
  obtain ⟨hmem, hmax⟩ := maxByMtime_spec dirs latest h
  refine ⟨hmem, hmax, ?_, ?_, ?_⟩
  · intro f
    simp only [newCollectArtifacts, h, List.mem_append, List.mem_filter]
    constructor
    · rintro ((⟨h1, h2⟩ | ⟨h1, h2⟩) | ⟨h1, h2⟩) <;> exact ⟨h1, by tauto⟩
    · rintro ⟨h1, h2 | h2 | h2⟩
      · exact Or.inl (Or.inl ⟨h1, h2⟩)
      · exact Or.inl (Or.inr ⟨h1, h2⟩)
      · exact Or.inr ⟨h1, h2⟩
  · intro f hf
    simp only [collectArtifacts, h, List.mem_filterMap, id_eq, List.mem_cons,
      List.not_mem_nil, or_false] at hf
    obtain ⟨o, ho, rfl⟩ := hf
    rcases ho with ho | ho | ho
    · obtain ⟨h1, h2⟩ := lastMatching_spec _ _ _ ho.symm
      exact ⟨h1, Or.inl h2⟩
    · obtain ⟨h1, h2⟩ := lastMatching_spec _ _ _ ho.symm
      exact ⟨h1, Or.inr (Or.inl h2)⟩
    · obtain ⟨h1, h2⟩ := lastMatching_spec _ _ _ ho.symm
      exact ⟨h1, Or.inr (Or.inr h2)⟩
  · simp only [collectArtifacts, h]
    calc ([lastMatching ".obj" latest.files, lastMatching ".mtl" latest.files,
        lastMatching ".png" latest.files].filterMap id).length
        ≤ [lastMatching ".obj" latest.files, lastMatching ".mtl" latest.files,
          lastMatching ".png" latest.files].length := List.length_filterMap_le _ _
      _ = 3 := rfl

/-- Witness for `artifact_collection_spec` on a concrete two-directory
cache whose most recent directory is `texturingDir`. -/
theorem artifact_collection_spec_witness :
    texturingDir ∈ [olderDir, texturingDir] ∧
    (∀ d ∈ [olderDir, texturingDir], d.mtime ≤ texturingDir.mtime) ∧
    (∀ f, f ∈ newCollectArtifacts (some [olderDir, texturingDir]) ↔
      f ∈ texturingDir.files ∧ (pyEndsWith f ".obj" = true ∨
        pyEndsWith f ".mtl" = true ∨ pyEndsWith f ".png" = true)) ∧
    (∀ f ∈ collectArtifacts (some [olderDir, texturingDir]),
      f ∈ texturingDir.files ∧ (pyEndsWith f ".obj" = true ∨
        pyEndsWith f ".mtl" = true ∨ pyEndsWith f ".png" = true)) ∧
    (collectArtifacts (some [olderDir, texturingDir])).length ≤ 3 :=
  artifact_collection_spec [olderDir, texturingDir] texturingDir (by decide)

theorem lookup_filter_ne (k : String) (env : List (String × String)) :
    List.lookup k (env.filter (fun p => p.1 ≠ k)) = none := by
  induction env with
  | nil => rfl
  | cons a t ih =>
    obtain ⟨a1, a2⟩ := a
    by_cases ha : a1 = k
    · rw [List.filter_cons, if_neg (by simp [ha])]
      exact ih
    · simp only [List.filter_cons]
      rw [if_pos (by simp [ha])]
      rw [List.lookup_cons]
      simp only [show (k == a1) = false from beq_eq_false_iff_ne.mpr (fun hk => ha hk.symm)]
      exact ih

theorem lookup_setVar_self (env : List (String × String)) (k v : String) :
    List.lookup k (setVar env k v) = some v := by
  rw [setVar, List.lookup_append, lookup_filter_ne]
  simp [List.lookup_cons]

theorem lookup_setVar_ne (env : List (String × String)) (k k' v : String)
    (h : k ≠ k') :
    List.lookup k (setVar env k' v) = List.lookup k env := by
  rw [setVar, List.lookup_append]
  have h2 : List.lookup k [(k', v)] = none := by
    rw [List.lookup_cons]
    simp [show (k == k') = false from beq_eq_false_iff_ne.mpr h]
  rw [h2, Option.or_none]
  induction env with
  | nil => rfl
  | cons a t ih =>
    obtain ⟨a1, a2⟩ := a
    by_cases ha : a1 = k'
    · rw [List.filter_cons, if_neg (by simp [ha])]
      rw [List.lookup_cons]
      simp only [show (k == a1) = false from
        beq_eq_false_iff_ne.mpr (fun hk => h (hk.trans ha))]
      exact ih
    · rw [List.filter_cons, if_pos (by simp [ha])]
      rw [List.lookup_cons, List.lookup_cons]
      cases hk : (k == a1) with
      | true => rfl
      | false => exact ih

theorem meshEnvOf_lookups (base : List (String × String)) (g : List String)
    (cpu : Nat)
    (hbA : List.lookup "ALICEVISION_CUDA_DEVICES" base = none)
    (hbC : List.lookup "CUDA_VISIBLE_DEVICES" base = none) :
    List.lookup "OMP_NUM_THREADS" (meshEnvOf base g cpu)
      = some (toString (max 1 (cpu - 1))) ∧
    (g ≠ [] →
      List.lookup "ALICEVISION_CUDA_DEVICES" (meshEnvOf base g cpu)
        = some (joinIds g) ∧
      List.lookup "CUDA_VISIBLE_DEVICES" (meshEnvOf base g cpu)
        = some (joinIds g)) ∧
    (g = [] →
      List.lookup "ALICEVISION_CUDA_DEVICES" (meshEnvOf base g cpu) = none ∧
      List.lookup "CUDA_VISIBLE_DEVICES" (meshEnvOf base g cpu) = none) := by
  unfold meshEnvOf
  by_cases hg : g = []
  · rw [if_neg (by simp [hg])]
    refine ⟨lookup_setVar_self _ _ _, fun h => absurd hg h, fun _ => ⟨?_, ?_⟩⟩
    · rw [lookup_setVar_ne _ _ _ _ (by decide)]; exact hbA
    · rw [lookup_setVar_ne _ _ _ _ (by decide)]; exact hbC
  · rw [if_pos hg]
    refine ⟨lookup_setVar_self _ _ _, fun _ => ⟨?_, ?_⟩, fun h => absurd h hg⟩
    · rw [lookup_setVar_ne _ _ _ _ (by decide),
        lookup_setVar_ne _ _ _ _ (by decide)]
      exact lookup_setVar_self _ _ _
    · rw [lookup_setVar_ne _ _ _ _ (by decide)]
      exact lookup_setVar_self _ _ _

theorem newMeshEnvOf_lookups (base : List (String × String)) (g : List String)
    (hbA : List.lookup "ALICEVISION_CUDA_DEVICES" base = none)
    (hbC : List.lookup "CUDA_VISIBLE_DEVICES" base = none)
    (hbO : List.lookup "OMP_NUM_THREADS" base = none) :
    List.lookup "OMP_NUM_THREADS" (newMeshEnvOf base g) = none ∧
    (g ≠ [] →
      List.lookup "ALICEVISION_CUDA_DEVICES" (newMeshEnvOf base g)
        = some (joinIds g) ∧
      List.lookup "CUDA_VISIBLE_DEVICES" (newMeshEnvOf base g)
        = some (joinIds g)) ∧
    (g = [] →
      List.lookup "ALICEVISION_CUDA_DEVICES" (newMeshEnvOf base g) = none ∧
      List.lookup "CUDA_VISIBLE_DEVICES" (newMeshEnvOf base g) = none) := by
  unfold newMeshEnvOf
  by_cases hg : g = []
  · rw [if_neg (by simp [hg])]
    exact ⟨hbO, fun h => absurd hg h, fun _ => ⟨hbA, hbC⟩⟩
  · rw [if_pos hg]
    refine ⟨?_, fun _ => ⟨?_, ?_⟩, fun h => absurd h hg⟩
    · rw [lookup_setVar_ne _ _ _ _ (by decide),
        lookup_setVar_ne _ _ _ _ (by decide)]
      exact hbO
    · rw [lookup_setVar_ne _ _ _ _ (by decide)]
      exact lookup_setVar_self _ _ _
    · exact lookup_setVar_self _ _ _

/-- Claim C8 counterexample: new_mesh.py builds the reconstruction environment
from the GPU-visibility variables alone (lines 143-146) — it sets no
CPU-thread-count hint, so the environment passed to the reconstruction
stage on this run contains no `OMP_NUM_THREADS` entry. -/
theorem thread_hint_counterexample :
    (newMeshMain gpuEnvWorldNew).meshEnv =
      some [("ALICEVISION_CUDA_DEVICES", "0"), ("CUDA_VISIBLE_DEVICES", "0")] ∧
    Option.map (List.lookup "OMP_NUM_THREADS")
      (newMeshMain gpuEnvWorldNew).meshEnv = some none := by decide

/-- Claim C8 (amended): assuming the inherited environment does not already
bind the accelerator or thread-count variables, the environment passed
to the reconstruction stage contains the accelerator-visibility
variables (as the comma-joined id list) exactly when the accelerator set
is non-empty, in both orchestrators; mesh.py additionally sets the
CPU-thread-count hint `OMP_NUM_THREADS = max(1, logical_cpus - 1)`, but
new_mesh.py sets no thread-count hint at all. -/
theorem stage_env_spec (w : MeshWorld) (w' : NewMeshWorld)
    (hv : w.videoExists = true)
    (hok : (download_meshroom w.meshroomPresent w.wgetExit w.tarExit).ok = true)
    (hf : w.ffmpegExit = 0) (hm : w.meshroomExit = 0)
    (hbA : List.lookup "ALICEVISION_CUDA_DEVICES" w.baseEnv = none)
    (hbC : List.lookup "CUDA_VISIBLE_DEVICES" w.baseEnv = none)
    (hv' : w'.videoExists = true)
    (hok' : (new_download_meshroom w'.tgzExists w'.wgetExit w'.tarExit
      w'.workdirDirs w'.exeFound).ok = true)
    (hf' : w'.ffmpegExit = 0) (hm' : w'.meshroomExit = 0)
    (hbA' : List.lookup "ALICEVISION_CUDA_DEVICES" w'.baseEnv = none)
    (hbC' : List.lookup "CUDA_VISIBLE_DEVICES" w'.baseEnv = none)
    (hbO' : List.lookup "OMP_NUM_THREADS" w'.baseEnv = none) :
    ((meshMain w).meshEnv
      = some (meshEnvOf w.baseEnv (meshMain w).gpuIds w.cpuCount)) ∧
    (List.lookup "OMP_NUM_THREADS"
        (meshEnvOf w.baseEnv (meshMain w).gpuIds w.cpuCount)
      = some (toString (max 1 (w.cpuCount - 1)))) ∧
    ((meshMain w).gpuIds ≠ [] →
      List.lookup "ALICEVISION_CUDA_DEVICES"
          (meshEnvOf w.baseEnv (meshMain w).gpuIds w.cpuCount)
        = some (joinIds (meshMain w).gpuIds) ∧
      List.lookup "CUDA_VISIBLE_DEVICES"
          (meshEnvOf w.baseEnv (meshMain w).gpuIds w.cpuCount)
        = some (joinIds (meshMain w).gpuIds)) ∧
    ((meshMain w).gpuIds = [] →
      List.lookup "ALICEVISION_CUDA_DEVICES"
          (meshEnvOf w.baseEnv (meshMain w).gpuIds w.cpuCount) = none ∧
      List.lookup "CUDA_VISIBLE_DEVICES"
          (meshEnvOf w.baseEnv (meshMain w).gpuIds w.cpuCount) = none) ∧
    ((newMeshMain w').meshEnv
      = some (newMeshEnvOf w'.baseEnv (newMeshMain w').gpuIds)) ∧
    (List.lookup "OMP_NUM_THREADS"
        (newMeshEnvOf w'.baseEnv (newMeshMain w').gpuIds) = none) ∧
    ((newMeshMain w').gpuIds ≠ [] →
      List.lookup "ALICEVISION_CUDA_DEVICES"
          (newMeshEnvOf w'.baseEnv (newMeshMain w').gpuIds)
        = some (joinIds (newMeshMain w').gpuIds) ∧
      List.lookup "CUDA_VISIBLE_DEVICES"
          (newMeshEnvOf w'.baseEnv (newMeshMain w').gpuIds)
        = some (joinIds (newMeshMain w').gpuIds)) ∧
    ((newMeshMain w').gpuIds = [] →
      List.lookup "ALICEVISION_CUDA_DEVICES"
          (newMeshEnvOf w'.baseEnv (newMeshMain w').gpuIds) = none ∧
      List.lookup "CUDA_VISIBLE_DEVICES"
          (newMeshEnvOf w'.baseEnv (newMeshMain w').gpuIds) = none) := by
  obtain ⟨-, -, -, e4, -, -, -⟩ := meshMain_success w hv hok hf hm
  obtain ⟨-, -, -, n4, -, -, -⟩ := newMeshMain_success w' hv' hok' hf' hm'
  obtain ⟨l1, l2, l3⟩ :=
    meshEnvOf_lookups w.baseEnv (meshMain w).gpuIds w.cpuCount hbA hbC
  obtain ⟨m1, m2, m3⟩ :=
    newMeshEnvOf_lookups w'.baseEnv (newMeshMain w').gpuIds hbA' hbC' hbO'
  exact ⟨e4, l1, l2, l3, n4, m1, m2, m3⟩

/-- Witness for `stage_env_spec` on the concrete GPU-detecting runs. -/
theorem stage_env_spec_witness :
    ((meshMain gpuEnvWorld).meshEnv
      = some (meshEnvOf gpuEnvWorld.baseEnv (meshMain gpuEnvWorld).gpuIds
          gpuEnvWorld.cpuCount)) ∧
    (List.lookup "OMP_NUM_THREADS"
        (meshEnvOf gpuEnvWorld.baseEnv (meshMain gpuEnvWorld).gpuIds
          gpuEnvWorld.cpuCount)
      = some (toString (max 1 (gpuEnvWorld.cpuCount - 1)))) ∧
    ((meshMain gpuEnvWorld).gpuIds ≠ [] →
      List.lookup "ALICEVISION_CUDA_DEVICES"
          (meshEnvOf gpuEnvWorld.baseEnv (meshMain gpuEnvWorld).gpuIds
            gpuEnvWorld.cpuCount)
        = some (joinIds (meshMain gpuEnvWorld).gpuIds) ∧
      List.lookup "CUDA_VISIBLE_DEVICES"
          (meshEnvOf gpuEnvWorld.baseEnv (meshMain gpuEnvWorld).gpuIds
            gpuEnvWorld.cpuCount)
        = some (joinIds (meshMain gpuEnvWorld).gpuIds)) ∧
    ((meshMain gpuEnvWorld).gpuIds = [] →
      List.lookup "ALICEVISION_CUDA_DEVICES"
          (meshEnvOf gpuEnvWorld.baseEnv (meshMain gpuEnvWorld).gpuIds
            gpuEnvWorld.cpuCount) = none ∧
      List.lookup "CUDA_VISIBLE_DEVICES"
          (meshEnvOf gpuEnvWorld.baseEnv (meshMain gpuEnvWorld).gpuIds
            gpuEnvWorld.cpuCount) = none) ∧
    ((newMeshMain gpuEnvWorldNew).meshEnv
      = some (newMeshEnvOf gpuEnvWorldNew.baseEnv
          (newMeshMain gpuEnvWorldNew).gpuIds)) ∧
    (List.lookup "OMP_NUM_THREADS"
        (newMeshEnvOf gpuEnvWorldNew.baseEnv
          (newMeshMain gpuEnvWorldNew).gpuIds) = none) ∧
    ((newMeshMain gpuEnvWorldNew).gpuIds ≠ [] →
      List.lookup "ALICEVISION_CUDA_DEVICES"
          (newMeshEnvOf gpuEnvWorldNew.baseEnv
            (newMeshMain gpuEnvWorldNew).gpuIds)
        = some (joinIds (newMeshMain gpuEnvWorldNew).gpuIds) ∧
      List.lookup "CUDA_VISIBLE_DEVICES"
          (newMeshEnvOf gpuEnvWorldNew.baseEnv
            (newMeshMain gpuEnvWorldNew).gpuIds)
        = some (joinIds (newMeshMain gpuEnvWorldNew).gpuIds)) ∧
    ((newMeshMain gpuEnvWorldNew).gpuIds = [] →
      List.lookup "ALICEVISION_CUDA_DEVICES"
          (newMeshEnvOf gpuEnvWorldNew.baseEnv
            (newMeshMain gpuEnvWorldNew).gpuIds) = none ∧
      List.lookup "CUDA_VISIBLE_DEVICES"
          (newMeshEnvOf gpuEnvWorldNew.baseEnv
            (newMeshMain gpuEnvWorldNew).gpuIds) = none) :=
  stage_env_spec gpuEnvWorld gpuEnvWorldNew rfl (by decide) rfl rfl rfl rfl
    rfl (by decide) rfl rfl rfl rfl rfl

end Rora
